import Mathlib

/-!
Verification of the link-fusion URL shortener's redirect-and-analytics
pipeline, shallowly embedded from the Python/Django source.

Model layout (with the source locations each definition embeds):
* `ShortenedURL`, `ShortenedURL.is_expired`, `ShortenedURL.can_be_accessed`,
  `ShortenedURL.has_password`, `ShortenedURL.set_password`,
  `ShortenedURL.check_password` — core/models.py, class `ShortenedURL`.
* `Click`, `Click.populate_analytics_data`, `Click.save` — core/models.py,
  class `Click`.
* `parse_user_agent`, `parse_user_agent_fallback` — core/utils.py.
* `get_location_from_ip` — core/utils.py, with the two external HTTP
  providers modelled as an explicit environment (`GeoNet`).
* `redirectGet` — core/views.py, `RedirectView.get`.
* `redirectStepRead` / `redirectStepCommit` — the same handler split at its
  database read (line 829) and write-back (lines 845-854), to express
  interleavings of concurrent requests.

Machine times are modelled as `Nat` ticks; `timezone.now()` becomes an
explicit `now` parameter.  Python string truthiness is modelled as
comparison with `""`, and `None`-able columns as `Option`.
-/

/-- Django model `ShortenedURL` (core/models.py), restricted to the columns
the redirect pipeline reads: destination, short code, click counter, active
flag, optional expiry timestamp, optional click quota and (hashed) password.
`expires_at` is a `Nat` tick instead of a datetime. -/
structure ShortenedURL where
  original_url : String
  short_code : String
  clicks : Nat
  is_active : Bool
  expires_at : Option Nat
  max_clicks : Option Nat
  password : String
deriving DecidableEq, Repr

/-- `ShortenedURL.is_expired` (core/models.py lines 132-136):
`expires_at` set and `timezone.now() > expires_at`. -/
def ShortenedURL.is_expired (l : ShortenedURL) (now : Nat) : Bool :=
  match l.expires_at with
  | some t => decide (now > t)
  | none => false

/-- Truthiness of the Python expression
`self.max_clicks and self.clicks >= self.max_clicks`
(core/models.py line 144).  `None` and `0` are both falsy in Python, so a
quota of `0` never triggers this guard. -/
def ShortenedURL.quota_exhausted (l : ShortenedURL) : Bool :=
  match l.max_clicks with
  | none => false
  | some m => if m = 0 then false else decide (l.clicks ≥ m)

/-- `ShortenedURL.can_be_accessed` (core/models.py lines 138-146). -/
def ShortenedURL.can_be_accessed (l : ShortenedURL) (now : Nat) : Bool :=
  if l.is_active = false then false
  else if l.is_expired now then false
  else if l.quota_exhausted then false
  else true

/-- `ShortenedURL.has_password` (core/models.py lines 148-150):
`bool(self.password)`, i.e. the stored string is non-empty. -/
def ShortenedURL.has_password (l : ShortenedURL) : Bool :=
  l.password ≠ ""

/-- Modelled from the spec: Django's password-hashing primitive
(`django.contrib.auth.hashers.make_password`), which is library code outside
this repository.  The spec requires a hash-and-verify pair ("compare
candidate against the stored hash using a constant-work hashing comparison");
we model the encoded form as an injective tagging of the raw password. -/
def django_make_password (raw : String) : String :=
  "pbkdf2_sha256$" ++ raw

/-- Modelled from the spec: Django's
`django.contrib.auth.hashers.check_password(raw, encoded)` — verification of
a candidate against a stored encoded hash. -/
def django_check_password (raw encoded : String) : Bool :=
  encoded = django_make_password raw

/-- `ShortenedURL.set_password` (core/models.py lines 152-157): hash a truthy
raw password, store `''` otherwise. -/
def ShortenedURL.set_password (l : ShortenedURL) (raw : String) : ShortenedURL :=
  if raw = "" then { l with password := "" }
  else { l with password := django_make_password raw }

/-- `ShortenedURL.check_password` (core/models.py lines 159-163): an empty
stored password accepts every candidate; otherwise defer to the hasher. -/
def ShortenedURL.check_password (l : ShortenedURL) (raw : String) : Bool :=
  if l.password = "" then true
  else django_check_password raw l.password

/-! ### User-agent classification (core/utils.py lines 11-107) -/

/-- `b` occurs at the head of `l` (character-list prefix test). -/
def listPre : List Char → List Char → Bool
  | [], _ => true
  | _ :: _, [] => false
  | a :: as, b :: bs => a == b && listPre as bs

/-- `n` occurs somewhere inside `l` (character-list substring test). -/
def listSub (n : List Char) : List Char → Bool
  | [] => listPre n []
  | b :: bs => listPre n (b :: bs) || listSub n bs

/-- Python's `needle in haystack` on strings. -/
def strContains (haystack needle : String) : Bool :=
  listSub needle.toList haystack.toList

/-- Python's `s.lower()` (ASCII range), applied character by character. -/
def pyLower (s : String) : String :=
  ⟨s.data.map Char.toLower⟩

/-- Result record of the user-agent classifier (the dict returned by
`parse_user_agent` / `parse_user_agent_fallback` in core/utils.py). -/
structure UAData where
  device_type : String
  browser : String
  operating_system : String
deriving DecidableEq, Repr

/-- `parse_user_agent_fallback` (core/utils.py lines 61-107): lower-case the
string, then keyword tables for device, browser (an if/elif priority chain)
and operating system. -/
def parse_user_agent_fallback (user_agent_string : String) : UAData :=
  let ua := pyLower user_agent_string
  let device_type :=
    if ["mobile", "android", "iphone", "ipod"].any (fun m => strContains ua m) then "Mobile"
    else if strContains ua "ipad" || strContains ua "tablet" then "Tablet"
    else "Desktop"
  let browser :=
    if strContains ua "chrome" && !strContains ua "edge" then "Chrome"
    else if strContains ua "firefox" then "Firefox"
    else if strContains ua "safari" && !strContains ua "chrome" then "Safari"
    else if strContains ua "edge" then "Edge"
    else if strContains ua "opera" || strContains ua "opr" then "Opera"
    else if strContains ua "msie" || strContains ua "trident" then "Internet Explorer"
    else "Unknown"
  let operating_system :=
    if strContains ua "windows" then "Windows"
    else if strContains ua "macintosh" || strContains ua "mac os" then "macOS"
    else if strContains ua "linux" then "Linux"
    else if strContains ua "android" then "Android"
    else if strContains ua "ios" || strContains ua "iphone" || strContains ua "ipad" then "iOS"
    else "Unknown"
  ⟨device_type, browser, operating_system⟩

/-- Behaviour of the external `user_agents` library at one call site
(core/utils.py lines 4-8 and 23-55): it may be absent (`ImportError`), raise
on this input, or return a parsed object with device flags and
family/version strings for browser and OS. -/
inductive UALib where
  | unavailable : UALib
  | raises : UALib
  | parsed (isMobile isTablet isPc : Bool)
      (browserFamily browserVersion osFamily osVersion : String) : UALib
deriving DecidableEq, Repr

/-- `parse_user_agent` (core/utils.py lines 11-58): empty input short-circuits
to Unknown; the library path maps flags and composes "family version"
strings truncated to 100 characters; library absence or an exception falls
back to `parse_user_agent_fallback`. -/
def parse_user_agent (user_agent_string : String) (lib : UALib) : UAData :=
  if user_agent_string = "" then ⟨"Unknown", "Unknown", "Unknown"⟩
  else
    match lib with
    | .unavailable => parse_user_agent_fallback user_agent_string
    | .raises => parse_user_agent_fallback user_agent_string
    | .parsed isMobile isTablet isPc bFam bVer osFam osVer =>
      let device_type :=
        if isMobile then "Mobile"
        else if isTablet then "Tablet"
        else if isPc then "Desktop"
        else "Unknown"
      let browser := if bVer ≠ "" then bFam ++ " " ++ bVer else bFam
      let operating_system := if osVer ≠ "" then osFam ++ " " ++ osVer else osFam
      ⟨device_type, browser.take 100, operating_system.take 100⟩

/-! ### IP geolocation (core/utils.py lines 110-160) -/

/-- The (country, city) dict returned by `get_location_from_ip`. -/
structure GeoResult where
  country : String
  city : String
deriving DecidableEq, Repr

/-- JSON body the primary provider (ipapi.co) may return; `none` fields model
absent keys (read with `data.get(key, 'Unknown')`). -/
structure PrimaryJson where
  country_name : Option String
  city : Option String
deriving DecidableEq, Repr

/-- JSON body the secondary provider (ip-api.com) may return, including its
explicit `status` flag. -/
structure SecondaryJson where
  status : Option String
  country : Option String
  city : Option String
deriving DecidableEq, Repr

/-- One `requests.get` call: `exn` models a timeout or any other exception
raised by the request itself; `ok status body` a returned response, where
`body = none` means `response.json()` raises (malformed body). -/
inductive Fetch (α : Type) where
  | exn : Fetch α
  | ok (status : Nat) (body : Option α) : Fetch α
deriving DecidableEq, Repr

/-- The network environment of one `get_location_from_ip` call: what each
provider would answer if queried. -/
structure GeoNet where
  primary : Fetch PrimaryJson
  secondary : Fetch SecondaryJson
deriving DecidableEq, Repr

/-- Observable outcome of `get_location_from_ip`: the returned dict plus
which providers were actually contacted. -/
structure GeoOutcome where
  result : GeoResult
  primaryCalled : Bool
  secondaryCalled : Bool
deriving DecidableEq, Repr

/-- The Python expression `x[:100] if x else 'Unknown'` applied to a field
already defaulted with `data.get(key, 'Unknown')`. -/
def normField (s : String) : String :=
  if s = "" then "Unknown" else s.take 100

/-- The secondary-provider branch of `get_location_from_ip`
(core/utils.py lines 136-154), reached only from the outer `except`: accept
the body only on HTTP 200 with `status == 'success'`; any inner exception is
swallowed by `pass` and control reaches the final Unknown return. -/
def geoSecondary (net : GeoNet) : GeoOutcome :=
  match net.secondary with
  | .exn => ⟨⟨"Unknown", "Unknown"⟩, true, true⟩
  | .ok s b =>
    if s = 200 then
      match b with
      | none => ⟨⟨"Unknown", "Unknown"⟩, true, true⟩
      | some d =>
        if d.status = some "success" then
          ⟨⟨normField (d.country.getD "Unknown"), normField (d.city.getD "Unknown")⟩,
            true, true⟩
        else ⟨⟨"Unknown", "Unknown"⟩, true, true⟩
    else ⟨⟨"Unknown", "Unknown"⟩, true, true⟩

/-- The local-IP guard of `get_location_from_ip` (core/utils.py line 114):
`not ip_address or ip_address in ['127.0.0.1', '::1', 'localhost']`. -/
def isLocalIp (ip : String) : Bool :=
  ip = "" || ip = "127.0.0.1" || ip = "::1" || ip = "localhost"

/-- `get_location_from_ip` (core/utils.py lines 110-160).  Note the control
flow of the source: the secondary provider sits in the `except` handler, so
it runs only when the primary *raises* (request exception or `.json()`
failure).  A primary response with a non-200 status raises nothing, skips
the `if`, and falls through to the final Unknown return without ever
contacting the secondary provider. -/
def get_location_from_ip (ip_address : String) (net : GeoNet) : GeoOutcome :=
  if isLocalIp ip_address then ⟨⟨"Local", "Local"⟩, false, false⟩
  else
    match net.primary with
    | .exn => geoSecondary net
    | .ok s b =>
      if s = 200 then
        match b with
        | none => geoSecondary net
        | some d =>
          ⟨⟨normField (d.country_name.getD "Unknown"), normField (d.city.getD "Unknown")⟩,
            true, false⟩
      else ⟨⟨"Unknown", "Unknown"⟩, true, false⟩

/-! ### Click rows and their enrichment (core/models.py lines 166-220) -/

/-- Django model `Click` (core/models.py), restricted to the columns the
pipeline touches.  `pk` is the primary key: `none` before the first
`save()` (Python's `self.pk is None`), `some k` once inserted.  The five
derived columns default to `''` (`blank=True` CharFields). -/
structure Click where
  pk : Option Nat
  ip_address : String
  user_agent : String
  referer : String
  country : String
  city : String
  device_type : String
  browser : String
  operating_system : String
deriving DecidableEq, Repr

/-- The `Click.objects.create(url=..., ip_address=..., user_agent=...,
referer=...)` constructor call in `RedirectView.get` (core/views.py lines
845-850): raw fields from the request, derived fields at their model
defaults, no primary key yet. -/
def Click.create (ip ua referer : String) : Click :=
  ⟨none, ip, ua, referer, "", "", "", "", ""⟩

/-- `Click.populate_analytics_data` (core/models.py lines 193-210): a truthy
`user_agent` is classified into the three device fields, a truthy
`ip_address` geolocated into country and city; falsy raw fields leave the
corresponding derived fields untouched. -/
def Click.populate_analytics_data (c : Click) (lib : UALib) (net : GeoNet) : Click :=
  let c1 :=
    if c.user_agent ≠ "" then
      let ua_data := parse_user_agent c.user_agent lib
      { c with
          device_type := ua_data.device_type
          browser := ua_data.browser
          operating_system := ua_data.operating_system }
    else c
  if c1.ip_address ≠ "" then
    let location_data := (get_location_from_ip c1.ip_address net).result
    { c1 with country := location_data.country, city := location_data.city }
  else c1

/-- `Click.save` (core/models.py lines 212-220): enrich only when `self.pk`
is unset (first save), then `super().save()` — modelled as assigning the
fresh key `newPk` on insert and writing the in-memory fields as they are. -/
def Click.save (c : Click) (lib : UALib) (net : GeoNet) (newPk : Nat) : Click :=
  let c2 := if c.pk = none then c.populate_analytics_data lib net else c
  match c2.pk with
  | none => { c2 with pk := some newPk }
  | some _ => c2

/-! ### The redirect handler (core/views.py lines 826-867) -/

/-- The four response shapes `RedirectView.get` can produce: the 404 page,
the "link not available" page, the redirect to the password prompt, and the
302 to the destination. -/
inductive HttpResp where
  | notFound : HttpResp
  | unavailable : HttpResp
  | passwordRedirect (short_code : String) : HttpResp
  | redirect (target : String) : HttpResp
deriving DecidableEq, Repr

/-- Net effect of one `RedirectView.get` request: the response, the stored
link row afterwards (`none` when the short code resolved to nothing), and
the list of Click rows inserted during the request. -/
structure RedirectOutcome where
  response : HttpResp
  link : Option ShortenedURL
  clicksCreated : List Click
deriving DecidableEq, Repr

/-- `RedirectView.get` (core/views.py lines 826-859): 404 on a missing code;
the unavailable page when `can_be_accessed()` is false; the password prompt
when the link has a password the session has not verified; otherwise insert
a Click (which `Click.save` enriches), bump `url.clicks` in memory, save,
and 302 to the destination.  `sessionVerified` is the session flag
`password_verified_<short_code>`, `now` the clock, `lib`/`net` the
environments of the enrichment calls, `newPk` the key the insert assigns. -/
def redirectGet (found : Option ShortenedURL) (sessionVerified : Bool) (now : Nat)
    (ip ua referer : String) (lib : UALib) (net : GeoNet) (newPk : Nat) :
    RedirectOutcome :=
  match found with
  | none => ⟨.notFound, none, []⟩
  | some url =>
    if url.can_be_accessed now = false then ⟨.unavailable, some url, []⟩
    else if url.has_password && !sessionVerified then
      ⟨.passwordRedirect url.short_code, some url, []⟩
    else
      let row := (Click.create ip ua referer).save lib net newPk
      ⟨.redirect url.original_url, some { url with clicks := url.clicks + 1 }, [row]⟩

/-! ### The counter race (core/views.py lines 829 and 845-854)

`RedirectView.get` loads the row once (`get_object_or_404`, line 829), runs
its checks against that in-memory snapshot, inserts the Click, then executes
`url.clicks += 1; url.save()` — an increment of the *in-memory* copy written
back wholesale.  To talk about two concurrent requests we split the handler
at that read/write boundary. -/

/-- Shared storage for one link: the row itself plus the number of Click
rows referencing it. -/
structure DB where
  link : ShortenedURL
  clickCount : Nat
deriving DecidableEq, Repr

/-- The database read of `RedirectView.get` (core/views.py line 829): the
handler's in-memory `url` instance is a snapshot of the stored row. -/
def redirectStepRead (db : DB) : ShortenedURL :=
  db.link

/-- The write-back half of `RedirectView.get` for a password-free link,
operating on the snapshot `mem` taken earlier: if the snapshot passes the
access checks, insert a Click row (lines 845-850) and then save the
snapshot with its counter bumped (`url.clicks += 1; url.save()`, lines
852-854) — overwriting whatever the stored row holds by now. -/
def redirectStepCommit (db : DB) (mem : ShortenedURL) (now : Nat) : DB :=
  if mem.can_be_accessed now && !mem.has_password then
    { link := { mem with clicks := mem.clicks + 1 }, clickCount := db.clickCount + 1 }
  else db

/-- Two allowed redirects whose reads both happen before either write: the
interleaving read-A, read-B, commit-A, commit-B. -/
def twoRedirectsInterleaved (db0 : DB) (now : Nat) : DB :=
  let memA := redirectStepRead db0
  let memB := redirectStepRead db0
  let db1 := redirectStepCommit db0 memA now
  redirectStepCommit db1 memB now

/-- The same two redirects run back to back, the second reading after the
first committed. -/
def twoRedirectsSequential (db0 : DB) (now : Nat) : DB :=
  let memA := redirectStepRead db0
  let db1 := redirectStepCommit db0 memA now
  let memB := redirectStepRead db1
  redirectStepCommit db1 memB now

/-! ### Helper lemmas -/

/-- The modelled hasher is injective: equal encodings come from equal raws. -/
theorem django_make_password_inj (p q : String)
    (h : django_make_password p = django_make_password q) : p = q := by
  unfold django_make_password at h
  have h2 := congrArg String.data h
  simp only [String.data_append] at h2
  exact String.ext (List.append_cancel_left h2)

/-- The modelled hasher never produces the empty string. -/
theorem django_make_password_ne_empty (p : String) : django_make_password p ≠ "" := by
  intro h
  have h2 := congrArg String.length h
  simp [django_make_password, String.length_append] at h2
  exact absurd h2.1 (by decide)

/-- `populate_analytics_data` never touches the primary key. -/
theorem populate_analytics_data_pk (c : Click) (lib : UALib) (net : GeoNet) :
    (c.populate_analytics_data lib net).pk = c.pk := by
  unfold Click.populate_analytics_data
  by_cases h1 : c.user_agent = "" <;> simp [h1] <;>
    by_cases h2 : c.ip_address = "" <;> simp [h2]

/-- Whichever branch `geoSecondary` takes, it contacted both providers. -/
theorem geoSecondary_called (net : GeoNet) : (geoSecondary net).secondaryCalled = true := by
  unfold geoSecondary
  rcases net.secondary with _ | ⟨s, b⟩
  · rfl
  · by_cases hs : s = 200
    · rcases b with _ | d
      · simp [hs]
      · by_cases hd : d.status = some "success" <;> simp [hs, hd]
    · simp [hs]

/-! ### Claims -/

/-- C1: `can_be_accessed()` is `is_active AND NOT expired AND NOT
quota-exhausted`; in particular an inactive link is never accessible, and a
link whose `expires_at` lies strictly in the past is never accessible. -/
theorem c1_can_be_accessed_iff (l : ShortenedURL) (now : Nat) :
    (l.can_be_accessed now = (l.is_active && !l.is_expired now && !l.quota_exhausted))
    ∧ (l.is_active = false → l.can_be_accessed now = false)
    ∧ (∀ t, l.expires_at = some t → t < now → l.can_be_accessed now = false) := by
  refine ⟨?_, ?_, ?_⟩
  · cases ha : l.is_active <;> cases he : l.is_expired now <;>
      cases hq : l.quota_exhausted <;>
      simp [ShortenedURL.can_be_accessed, ha, he, hq]
  · intro ha
    simp [ShortenedURL.can_be_accessed, ha]
  · intro t ht hlt
    have he : l.is_expired now = true := by
      simp [ShortenedURL.is_expired, ht]
      omega
    cases ha : l.is_active <;>
      simp [ShortenedURL.can_be_accessed, ha, he]

/-- Witness for C1 at concrete links: an inactive link and an expired
active link are both inaccessible. -/
theorem c1_witness :
    ShortenedURL.can_be_accessed ⟨"https://a.com", "c1", 0, false, none, none, ""⟩ 0 = false
    ∧ ShortenedURL.can_be_accessed ⟨"https://a.com", "c2", 0, true, some 3, none, ""⟩ 10 = false :=
  ⟨(c1_can_be_accessed_iff _ 0).2.1 rfl,
   (c1_can_be_accessed_iff _ 10).2.2 3 rfl (by decide)⟩

/-- C2 counterexample: the claim includes `max_clicks = 0`, but the source
guard `if self.max_clicks and self.clicks >= self.max_clicks` treats a zero
quota as falsy, so a link with `max_clicks = 0` and `clicks = 5` is still
accessible. -/
theorem c2_counterexample :
    ¬ (∀ (l : ShortenedURL) (now m : Nat), l.max_clicks = some m → l.clicks ≥ m →
        l.can_be_accessed now = false) := by
  intro h
  exact absurd
    (h ⟨"https://example.com", "abc123", 5, true, none, some 0, ""⟩ 0 0 rfl (by decide))
    (by decide)

/-- C2 amended: for a *non-zero* quota `m`, `clicks ≥ m` denies access; and
the check runs before the increment, so an otherwise-accessible link at
`clicks = m - 1` is allowed, the redirect stores `clicks = m`, and the
stored row is then denied. -/
theorem c2_quota_amended (l : ShortenedURL) (now m : Nat) (sv : Bool)
    (ip ua ref : String) (lib : UALib) (net : GeoNet) (npk : Nat)
    (hm : l.max_clicks = some m) (hm0 : m ≠ 0) :
    (l.clicks ≥ m → l.can_be_accessed now = false)
    ∧ (l.is_active = true → l.is_expired now = false → l.password = "" →
        l.clicks + 1 = m →
        l.can_be_accessed now = true
        ∧ (redirectGet (some l) sv now ip ua ref lib net npk).response =
            .redirect l.original_url
        ∧ (redirectGet (some l) sv now ip ua ref lib net npk).link =
            some { l with clicks := m }
        ∧ ShortenedURL.can_be_accessed { l with clicks := m } now = false) := by
  constructor
  · intro hge
    have hq : l.quota_exhausted = true := by
      simp [ShortenedURL.quota_exhausted, hm, hm0]
      omega
    cases ha : l.is_active <;> cases he : l.is_expired now <;>
      simp [ShortenedURL.can_be_accessed, ha, he, hq]
  · intro ha he hp hclick
    have hq : l.quota_exhausted = false := by
      simp [ShortenedURL.quota_exhausted, hm, hm0]
      omega
    have hcan : l.can_be_accessed now = true := by
      simp [ShortenedURL.can_be_accessed, ha, he, hq]
    have hpw : l.has_password = false := by
      simp [ShortenedURL.has_password, hp]
    have hq2 : ShortenedURL.quota_exhausted { l with clicks := m } = true := by
      simp [ShortenedURL.quota_exhausted, hm, hm0]
    refine ⟨hcan, ?_, ?_, ?_⟩
    · simp [redirectGet, hcan, hpw]
    · simp [redirectGet, hcan, hpw, hclick]
    · have hax : ({ l with clicks := m } : ShortenedURL).is_active = true := ha
      have hex : ShortenedURL.is_expired { l with clicks := m } now = false := he
      simp [ShortenedURL.can_be_accessed, hax, hex, hq2]

/-- Witness for C2's amended statement at a concrete link with quota 3:
denied at `clicks = 3`, allowed at `clicks = 2` with the redirect storing
`clicks = 3`. -/
theorem c2_witness :
    ShortenedURL.can_be_accessed ⟨"https://x.com", "q", 3, true, none, some 3, ""⟩ 0 = false
    ∧ (redirectGet (some ⟨"https://x.com", "q", 2, true, none, some 3, ""⟩)
        false 0 "1.2.3.4" "ua" "" .unavailable ⟨.exn, .exn⟩ 1).response =
        .redirect "https://x.com" :=
  ⟨(c2_quota_amended ⟨"https://x.com", "q", 3, true, none, some 3, ""⟩ 0 3 false "" "" ""
      .unavailable ⟨.exn, .exn⟩ 1 (by decide) (by decide)).1 (by decide),
   ((c2_quota_amended ⟨"https://x.com", "q", 2, true, none, some 3, ""⟩ 0 3 false "1.2.3.4" "ua" ""
      .unavailable ⟨.exn, .exn⟩ 1 (by decide) (by decide)).2 (by decide) (by decide)
      (by decide) (by decide)).2.1⟩

/-- The link both concurrent requests of the C3 scenario race on. -/
def raceLink : ShortenedURL :=
  ⟨"https://example.com", "abc123", 0, true, none, none, ""⟩

/-- C3: the source increments with `url.clicks += 1; url.save()` — a
read-modify-write of the in-memory snapshot, not a storage-side atomic
increment.  Interleaving two allowed redirects (both reads before either
write-back) creates two Click rows but leaves `clicks = 1`, losing an
update; run sequentially the same two redirects give `clicks = 2`. -/
theorem c3_lost_update :
    (twoRedirectsInterleaved ⟨raceLink, 0⟩ 0).link.clicks = 1
    ∧ (twoRedirectsInterleaved ⟨raceLink, 0⟩ 0).clickCount = 2
    ∧ (twoRedirectsSequential ⟨raceLink, 0⟩ 0).link.clicks = 2 := by
  refine ⟨by decide, by decide, by decide⟩

/-- C4: a link with an empty stored password accepts every candidate; after
setting a non-empty password, the correct candidate is accepted and any
other (non-empty) candidate is rejected. -/
theorem c4_check_password (l : ShortenedURL) (x p q : String)
    (hp : p ≠ "") (_hq0 : q ≠ "") (hq : q ≠ p) :
    (l.password = "" → l.check_password x = true)
    ∧ (l.set_password p).check_password p = true
    ∧ (l.set_password p).check_password q = false := by
  have hstore : (l.set_password p).password = django_make_password p := by
    simp [ShortenedURL.set_password, hp]
  refine ⟨?_, ?_, ?_⟩
  · intro h
    simp [ShortenedURL.check_password, h]
  · simp [ShortenedURL.check_password, hstore, django_make_password_ne_empty p,
      django_check_password]
  · simp [ShortenedURL.check_password, hstore, django_make_password_ne_empty p,
      django_check_password]
    intro hcontra
    exact absurd (django_make_password_inj p q hcontra) (fun e => hq e.symm)

/-- Witness for C4: an unprotected link accepts "anything"; a link whose
password was set to "s3cret" accepts "s3cret" and rejects "wrong". -/
theorem c4_witness :
    ShortenedURL.check_password ⟨"https://a.com", "w", 0, true, none, none, ""⟩ "anything" = true
    ∧ (ShortenedURL.set_password ⟨"https://a.com", "w", 0, true, none, none, ""⟩
        "s3cret").check_password "s3cret" = true
    ∧ (ShortenedURL.set_password ⟨"https://a.com", "w", 0, true, none, none, ""⟩
        "s3cret").check_password "wrong" = false := by
  obtain ⟨h1, h2, h3⟩ :=
    c4_check_password ⟨"https://a.com", "w", 0, true, none, none, ""⟩ "anything" "s3cret" "wrong"
      (by decide) (by decide) (by decide)
  exact ⟨h1 rfl, h2, h3⟩

/-- The network environment of the C5 counterexample: the primary provider
answers with HTTP 503, the secondary would answer with an explicit success
carrying Germany/Berlin. -/
def c5net : GeoNet :=
  ⟨.ok 503 none, .ok 200 (some ⟨some "success", some "Germany", some "Berlin"⟩)⟩

/-- C5 counterexample: on a non-200 primary response no exception is raised,
so control falls past the `except` handler straight to the final Unknown
return — the secondary provider is never contacted even though it would
have reported success, contradicting the claim that a non-200 primary
triggers the secondary lookup. -/
theorem c5_counterexample :
    c5net.primary = .ok 503 none
    ∧ c5net.secondary = .ok 200 (some ⟨some "success", some "Germany", some "Berlin"⟩)
    ∧ (get_location_from_ip "8.8.8.8" c5net).secondaryCalled = false
    ∧ (get_location_from_ip "8.8.8.8" c5net).result = ⟨"Unknown", "Unknown"⟩ :=
  ⟨rfl, rfl, by decide, by decide⟩

/-- C5 amended: for a non-local IP, the secondary provider is consulted
exactly when the primary *raises* (request exception/timeout, or a
malformed 200 body); its result is accepted only on an explicit
`status == "success"`, and otherwise the function degrades to
Unknown/Unknown.  A non-200 primary response skips the secondary entirely
and yields Unknown/Unknown.  (The function is total, so it never raises.) -/
theorem c5_amended (ip : String) (net : GeoNet) (h : isLocalIp ip = false) :
    ((net.primary = .exn ∨ net.primary = .ok 200 none) →
        get_location_from_ip ip net = geoSecondary net
        ∧ (geoSecondary net).secondaryCalled = true
        ∧ (∀ d, net.secondary = .ok 200 (some d) → d.status = some "success" →
            (geoSecondary net).result =
              ⟨normField (d.country.getD "Unknown"), normField (d.city.getD "Unknown")⟩)
        ∧ ((¬ ∃ d, net.secondary = .ok 200 (some d) ∧ d.status = some "success") →
            (geoSecondary net).result = ⟨"Unknown", "Unknown"⟩))
    ∧ (∀ s b, net.primary = .ok s b → s ≠ 200 →
        get_location_from_ip ip net = ⟨⟨"Unknown", "Unknown"⟩, true, false⟩) := by
  constructor
  · intro hp
    refine ⟨?_, geoSecondary_called net, ?_, ?_⟩
    · rcases hp with hp | hp <;> simp [get_location_from_ip, h, hp]
    · intro d hd hds
      simp [geoSecondary, hd, hds]
    · intro hno
      rcases hs : net.secondary with _ | ⟨s, b⟩
      · simp [geoSecondary, hs]
      · by_cases h200 : s = 200
        · rcases b with _ | d
          · simp [geoSecondary, hs, h200]
          · have hds : d.status ≠ some "success" := by
              intro hcontra
              exact hno ⟨d, by rw [hs, h200], hcontra⟩
            simp [geoSecondary, hs, h200, hds]
        · simp [geoSecondary, hs, h200]
  · intro s b hp h200
    simp [get_location_from_ip, h, hp, h200]

/-- The network environment of the C5 witness: primary raises, secondary
succeeds explicitly. -/
def c5wnet : GeoNet :=
  ⟨.exn, .ok 200 (some ⟨some "success", some "Germany", some "Berlin"⟩)⟩

set_option maxRecDepth 4096 in
/-- Witness for C5's amended statement: with a raising primary and an
explicitly-successful secondary, the secondary is contacted and its
result returned. -/
theorem c5_amended_witness :
    (get_location_from_ip "9.9.9.9" c5wnet).secondaryCalled = true
    ∧ (get_location_from_ip "9.9.9.9" c5wnet).result = ⟨"Germany", "Berlin"⟩ := by
  obtain ⟨heq, hcalled, haccept, _⟩ :=
    (c5_amended "9.9.9.9" c5wnet (by decide)).1 (Or.inl rfl)
  refine ⟨by rw [heq]; exact hcalled, ?_⟩
  rw [heq, haccept ⟨some "success", some "Germany", some "Berlin"⟩ rfl rfl]
  decide

/-- C6: an empty or loopback IP short-circuits to Local/Local with neither
provider contacted. -/
theorem c6_local_ip (ip : String) (net : GeoNet)
    (h : ip = "" ∨ ip = "127.0.0.1" ∨ ip = "::1" ∨ ip = "localhost") :
    get_location_from_ip ip net = ⟨⟨"Local", "Local"⟩, false, false⟩ := by
  have hl : isLocalIp ip = true := by
    rcases h with h | h | h | h <;> simp [isLocalIp, h]
  simp [get_location_from_ip, hl]

/-- Witness for C6 at `127.0.0.1`. -/
theorem c6_witness :
    get_location_from_ip "127.0.0.1" ⟨Fetch.exn, Fetch.exn⟩ =
      ⟨⟨"Local", "Local"⟩, false, false⟩ :=
  c6_local_ip _ _ (Or.inr (Or.inl rfl))

/-- C7: a request whose link fails `can_be_accessed()` renders the
unavailable page, inserts no Click row and stores the link unchanged in
every field. -/
theorem c7_denied_frame (url : ShortenedURL) (sv : Bool) (now : Nat)
    (ip ua ref : String) (lib : UALib) (net : GeoNet) (npk : Nat)
    (h : url.can_be_accessed now = false) :
    redirectGet (some url) sv now ip ua ref lib net npk =
      ⟨.unavailable, some url, []⟩ := by
  simp [redirectGet, h]

/-- Witness for C7: the spec's scenario — an otherwise-clean link whose
`expires_at` is in the past — renders unavailable with no state change. -/
theorem c7_witness :
    redirectGet (some ⟨"https://example.com", "abc123", 0, true, some 5, none, ""⟩)
        false 10 "1.2.3.4" "Mozilla" "" .unavailable ⟨.exn, .exn⟩ 1 =
      ⟨.unavailable, some ⟨"https://example.com", "abc123", 0, true, some 5, none, ""⟩, []⟩ :=
  c7_denied_frame _ _ _ _ _ _ _ _ _ (by decide)

/-- C8: `Click.save` runs the enrichment exactly on the first save — with
no primary key it persists the row enriched from the raw fields as they are
at that moment, and with a primary key it writes the row back untouched, so
editing `ip_address` (or any raw field) on an existing row never changes
the derived fields. -/
theorem c8_enrich_once (c : Click) (lib : UALib) (net : GeoNet) (npk : Nat) :
    (c.pk = none →
        c.save lib net npk = { c.populate_analytics_data lib net with pk := some npk })
    ∧ (∀ k, c.pk = some k → c.save lib net npk = c)
    ∧ (∀ k newIp, c.pk = some k →
        (({ c with ip_address := newIp } : Click).save lib net npk).country = c.country
        ∧ (({ c with ip_address := newIp } : Click).save lib net npk).city = c.city) := by
  have hupd : ∀ k, c.pk = some k →
      ∀ newIp, (({ c with ip_address := newIp } : Click).save lib net npk) =
        { c with ip_address := newIp } := by
    intro k hk newIp
    simp [Click.save, hk]
  refine ⟨?_, ?_, ?_⟩
  · intro h
    simp [Click.save, h, populate_analytics_data_pk]
  · intro k hk
    simp [Click.save, hk]
  · intro k newIp hk
    rw [hupd k hk newIp]
    exact ⟨rfl, rfl⟩

/-- Witness for C8: a fresh row is enriched and keyed; a stored row (pk 5)
with its five derived fields already filled is written back unchanged, even
after its `ip_address` was edited. -/
theorem c8_witness :
    Click.save ⟨none, "8.8.8.8", "", "", "", "", "", "", ""⟩ .unavailable ⟨.exn, .exn⟩ 1 =
      { Click.populate_analytics_data ⟨none, "8.8.8.8", "", "", "", "", "", "", ""⟩
          .unavailable ⟨.exn, .exn⟩ with pk := some 1 }
    ∧ Click.save ⟨some 5, "2.2.2.2", "Mozilla", "", "Germany", "Berlin", "Desktop",
          "Chrome", "Windows"⟩ .unavailable ⟨.exn, .exn⟩ 9 =
        ⟨some 5, "2.2.2.2", "Mozilla", "", "Germany", "Berlin", "Desktop",
          "Chrome", "Windows"⟩
    ∧ (Click.save ⟨some 5, "9.9.9.9", "Mozilla", "", "Germany", "Berlin", "Desktop",
          "Chrome", "Windows"⟩ .unavailable ⟨.exn, .exn⟩ 9).country = "Germany" :=
  ⟨(c8_enrich_once ⟨none, "8.8.8.8", "", "", "", "", "", "", ""⟩
      .unavailable ⟨.exn, .exn⟩ 1).1 rfl,
   (c8_enrich_once ⟨some 5, "2.2.2.2", "Mozilla", "", "Germany", "Berlin", "Desktop",
      "Chrome", "Windows"⟩ .unavailable ⟨.exn, .exn⟩ 9).2.1 5 rfl,
   ((c8_enrich_once ⟨some 5, "2.2.2.2", "Mozilla", "", "Germany", "Berlin", "Desktop",
      "Chrome", "Windows"⟩ .unavailable ⟨.exn, .exn⟩ 9).2.2 5 "9.9.9.9" rfl).1⟩

/-- The claim's device table for C9 (spec wording: mobile/android/iphone/ipod
give Mobile, ipad/tablet give Tablet, otherwise Desktop). -/
def claimDeviceType (low : String) : String :=
  if strContains low "mobile" || strContains low "android" ||
      strContains low "iphone" || strContains low "ipod" then "Mobile"
  else if strContains low "ipad" || strContains low "tablet" then "Tablet"
  else "Desktop"

/-- The claim's browser priority chain for C9: Chrome (unless "edge" is also
present), Firefox, Safari (unless "chrome" is present), Edge, Opera/"opr",
MSIE/Trident, else Unknown. -/
def claimBrowser (low : String) : String :=
  if strContains low "chrome" && !strContains low "edge" then "Chrome"
  else if strContains low "firefox" then "Firefox"
  else if strContains low "safari" && !strContains low "chrome" then "Safari"
  else if strContains low "edge" then "Edge"
  else if strContains low "opera" || strContains low "opr" then "Opera"
  else if strContains low "msie" || strContains low "trident" then "Internet Explorer"
  else "Unknown"

/-- The claim's OS table for C9: windows, macintosh/"mac os", linux, android,
ios/iphone/ipad, else Unknown. -/
def claimOS (low : String) : String :=
  if strContains low "windows" then "Windows"
  else if strContains low "macintosh" || strContains low "mac os" then "macOS"
  else if strContains low "linux" then "Linux"
  else if strContains low "android" then "Android"
  else if strContains low "ios" || strContains low "iphone" || strContains low "ipad" then "iOS"
  else "Unknown"

/-- C9: on every non-empty user-agent string the fallback classifier
computes exactly the lower-cased keyword tables of the claim. -/
theorem c9_fallback_table (ua : String) (_h : ua ≠ "") :
    parse_user_agent_fallback ua =
      ⟨claimDeviceType (pyLower ua), claimBrowser (pyLower ua), claimOS (pyLower ua)⟩ := by
  unfold parse_user_agent_fallback claimDeviceType claimBrowser claimOS
  simp [List.any, Bool.or_assoc]

set_option maxRecDepth 8192 in
/-- Witness for C9 at a concrete user-agent string containing "Windows" and
"Chrome". -/
theorem c9_witness :
    parse_user_agent_fallback "Windows Chrome" =
      ⟨claimDeviceType (pyLower "Windows Chrome"), claimBrowser (pyLower "Windows Chrome"),
        claimOS (pyLower "Windows Chrome")⟩
    ∧ parse_user_agent_fallback "Windows Chrome" = ⟨"Desktop", "Chrome", "Windows"⟩ :=
  ⟨c9_fallback_table "Windows Chrome" (by decide), by decide⟩

/-- C10: a Click created with an empty `user_agent` is saved with its three
device fields still `""` (the classifier is skipped, so no "Unknown" is
written), and one created with an empty `ip_address` is saved with
`country = city = ""` (geolocation skipped). -/
theorem c10_empty_raw_skips (ip ua ref : String) (lib : UALib) (net : GeoNet) (npk : Nat) :
    ((Click.create ip "" ref).save lib net npk).device_type = ""
    ∧ ((Click.create ip "" ref).save lib net npk).browser = ""
    ∧ ((Click.create ip "" ref).save lib net npk).operating_system = ""
    ∧ ((Click.create "" ua ref).save lib net npk).country = ""
    ∧ ((Click.create "" ua ref).save lib net npk).city = "" := by
  refine ⟨?_, ?_, ?_, ?_, ?_⟩ <;>
    by_cases hip : ip = "" <;> by_cases hua : ua = "" <;>
      simp [Click.save, Click.create, Click.populate_analytics_data,
        populate_analytics_data_pk, hip, hua]
